import Mathlib

/-!
Shallow embedding of `src/generate-link.js` (GitHub raw asset link generator CLI).

The program is modelled as pure functions:
* `generateLink` embeds the URL template function;
* `getFilesInFolder` embeds the directory listing (the filesystem is abstracted
  as a map from folder names to a directory state: missing, read error, or a
  list of entries with name, regular-file flag and modification time);
* `mainRun` embeds the whole command-line entry point, returning the lines
  written to standard output, the lines written to standard error, and the
  process exit code.
JavaScript's `String.prototype.split('/')` is embedded as the structurally
recursive `jsSplit`, and the stable comparator sort
`.sort((a, b) => b.mtime - a.mtime)` as a stable insertion sort by the
decidable relation `byNewest a b := b.mtime ≤ a.mtime`.
-/

namespace GenLink

/-- Embeds `const REPO_OWNER = 'xephas-official'`. -/
def REPO_OWNER : String := "xephas-official"

/-- Embeds `const REPO_NAME = 'AppAssets'`. -/
def REPO_NAME : String := "AppAssets"

/-- Embeds `const BRANCH = 'main'`. -/
def BRANCH : String := "main"

/-- Embeds `const PROJECT_PATH = 'linkyoo'`. -/
def PROJECT_PATH : String := "linkyoo"

/-- Embeds `const FOLDERS = ['meta', 'placeholders', 'blog']`. -/
def FOLDERS : List String := ["meta", "placeholders", "blog"]

/-- Embeds `generateLink(folder, filename)`: the template literal
`https://raw.githubusercontent.com/REPO_OWNER/REPO_NAME/refs/heads/BRANCH/PROJECT_PATH/folder/filename`. -/
def generateLink (folder filename : String) : String :=
  "https://raw.githubusercontent.com/" ++ REPO_OWNER ++ "/" ++ REPO_NAME ++
    "/refs/heads/" ++ BRANCH ++ "/" ++ PROJECT_PATH ++ "/" ++ folder ++ "/" ++ filename

/-- One directory entry as observed by the program: its name, whether
`fs.statSync(...).isFile()` holds, and its modification time
`fs.statSync(...).mtime.getTime()`. -/
structure DirEntry where
  name : String
  isFile : Bool
  mtime : Int
deriving DecidableEq

/-- Abstract state of the directory resolved for a folder:
`missing` models `fs.existsSync(folderPath)` returning false;
`readError msg` models any filesystem read throwing inside the `try` block
(the thrown error's `message` is `msg`);
`entries es` models a readable directory whose `fs.readdirSync` order is `es`. -/
inductive DirState where
  | missing : DirState
  | readError (msg : String) : DirState
  | entries (es : List DirEntry) : DirState
deriving DecidableEq

/-- The filesystem environment of one run: `dirname` models `__dirname`, and
`lookup` gives the state of the directory `path.join(__dirname, PROJECT_PATH, folder)`
for each folder name. -/
structure Fs where
  dirname : String
  lookup : String → DirState

/-- Embeds `path.join(__dirname, PROJECT_PATH, folder)` for plain segments. -/
def folderPath (fs : Fs) (folder : String) : String :=
  fs.dirname ++ "/" ++ PROJECT_PATH ++ "/" ++ folder

/-- Helper for `jsSplit`: walks the characters, cutting at each separator. -/
def splitCharsAux (sep : Char) : List Char → List Char → List String
  | [], acc => [String.mk acc.reverse]
  | c :: cs, acc =>
      if c == sep then String.mk acc.reverse :: splitCharsAux sep cs []
      else splitCharsAux sep cs (c :: acc)

/-- Embeds JavaScript `s.split(sep)` for a one-character separator:
`''.split('/') = ['']`, `'a/'.split('/') = ['a','']`, etc. -/
def jsSplit (s : String) (sep : Char) : List String :=
  splitCharsAux sep s.data []

/-- Embeds `file.startsWith('.')`. -/
def startsWithDot (s : String) : Bool :=
  match s.data with
  | [] => false
  | c :: _ => c == '.'

/-- The order used by the comparator `(a, b) => b.mtime - a.mtime`:
`a` may come before `b` exactly when the comparator is `≤ 0`,
i.e. `b.mtime ≤ a.mtime` (newest first). -/
def byNewest (a b : DirEntry) : Prop := b.mtime ≤ a.mtime

instance : DecidableRel byNewest :=
  fun a b => inferInstanceAs (Decidable (b.mtime ≤ a.mtime))

/-- Embeds `getFilesInFolder(folder)`. Returns the list of filenames the
function returns together with the lines it writes to standard error.
Mirrors the source: on a missing directory or a read error it logs one error
line and returns `[]`; otherwise it filters out hidden files and
non-regular-files, sorts by modification time newest first (stable, as
JavaScript's `Array.prototype.sort`), and keeps only the names. -/
def getFilesInFolder (fs : Fs) (folder : String) : List String × List String :=
  match fs.lookup folder with
  | DirState.missing =>
      ([], ["Error: Folder \"" ++ folderPath fs folder ++ "\" does not exist."])
  | DirState.readError msg =>
      ([], ["Error reading folder: " ++ msg])
  | DirState.entries es =>
      (((es.filter fun e => !startsWithDot e.name && e.isFile).insertionSort
          byNewest).map DirEntry.name, [])

/-- Embeds the template literal printed by `showUsage()`. -/
def usageText : String :=
  "\nUsage: node generate-link.js <path>\n\nArguments:\n  path - The path to the asset or just the folder name\n\nExamples:\n  # Generate link for a specific file:\n  node generate-link.js meta/Linkyoo-Editor-Cover.webp\n  node generate-link.js blog/Linkyoo-Editor-Blog.webp\n  node generate-link.js placeholders/kalya-placeholder.webp\n\n  # Generate links for all files in a folder (sorted by newest first):\n  node generate-link.js meta\n  node generate-link.js placeholders\n  node generate-link.js blog\n\nAvailable folders: " ++ String.intercalate ", " FOLDERS ++ "\n  "

/-- Embeds the `console.error` string of the `args.length !== 1` branch. -/
def tooManyArgsMsg : String :=
  "Error: Please provide the path in the format: folder/filename or just folder\n"

/-- Embeds the `console.error` string of the invalid-folder branches. -/
def invalidFolderMsg (folder : String) : String :=
  "Error: Invalid folder \"" ++ folder ++ "\". Must be one of: " ++
    String.intercalate ", " FOLDERS ++ "\n"

/-- Embeds the `console.error` string of the malformed-path branch. -/
def malformedPathMsg : String :=
  "Error: Path must be in the format: folder/filename or just folder\n"

/-- Embeds the `console.log` string of the empty-listing branch. -/
def noFilesMsg (folder : String) : String :=
  "\nNo files found in \"" ++ folder ++ "\" folder.\n"

/-- Embeds the header `console.log` of the listing branch, with the
`files.length > 1 ? 's' : ''` pluralization. -/
def headerMsg (folder : String) (n : Nat) : String :=
  "\nGenerated Links for \"" ++ folder ++ "\" folder (" ++ toString n ++ " file" ++
    (if 1 < n then "s" else "") ++ ", sorted by newest first):\n"

/-- Embeds the per-file `forEach` body: for each file, in order, one line
`index+1. filename` and one line with three spaces, the link and a newline. -/
def fileLines (folder : String) (files : List String) : List String :=
  (files.enum.map fun p =>
    [toString (p.1 + 1) ++ ". " ++ p.2, "   " ++ generateLink folder p.2 ++ "\n"]).flatten

/-- Observable outcome of one run: the lines passed to `console.log`
(standard output), the lines passed to `console.error` (standard error),
and the exit code. -/
structure Output where
  stdout : List String
  stderr : List String
  exitCode : Nat
deriving DecidableEq

/-- Embeds the main execution (lines 91-153 of the source) as a function of
the filesystem environment and `process.argv.slice(2)`. -/
def mainRun (fs : Fs) (args : List String) : Output :=
  if args.length == 0 || args.contains "--help" || args.contains "-h" then
    { stdout := [usageText], stderr := [], exitCode := 0 }
  else if !(args.length == 1) then
    { stdout := [usageText], stderr := [tooManyArgsMsg], exitCode := 1 }
  else
    match jsSplit (args.headD "") '/' with
    | [folder] =>
        if FOLDERS.contains folder then
          let res := getFilesInFolder fs folder
          if res.1.length == 0 then
            { stdout := [noFilesMsg folder], stderr := res.2, exitCode := 0 }
          else
            { stdout := headerMsg folder res.1.length :: fileLines folder res.1,
              stderr := res.2, exitCode := 0 }
        else
          { stdout := [usageText], stderr := [invalidFolderMsg folder], exitCode := 1 }
    | [folder, filename] =>
        if FOLDERS.contains folder then
          { stdout := ["\nGenerated Link:", generateLink folder filename, ""],
            stderr := [], exitCode := 0 }
        else
          { stdout := [usageText], stderr := [invalidFolderMsg folder], exitCode := 1 }
    | _ =>
        { stdout := [usageText], stderr := [malformedPathMsg], exitCode := 1 }

/-- A concrete filesystem with no directories, for concrete evaluations. -/
def emptyFs : Fs := ⟨"/app", fun _ => DirState.missing⟩

/-- The two-file example directory: `a.png` older, `b.png` newer. -/
def exampleDir : List DirEntry :=
  [{ name := "a.png", isFile := true, mtime := 100 },
   { name := "b.png", isFile := true, mtime := 200 }]

/-- A concrete filesystem whose `meta` directory is `exampleDir`. -/
def exampleFs : Fs :=
  ⟨"/app", fun f => if f = "meta" then DirState.entries exampleDir else DirState.missing⟩

/-- C1: for every folder in the allowed set and every filename, `generateLink`
returns exactly the fixed prefix
`https://raw.githubusercontent.com/xephas-official/AppAssets/refs/heads/main/linkyoo/`
followed by the folder, `/`, and the filename; in particular
`generateLink "meta" "cover.webp"` is the expected URL. As a Lean function it
is pure by construction. -/
theorem generateLink_spec (folder filename : String) (_hf : folder ∈ FOLDERS) :
    generateLink folder filename =
      "https://raw.githubusercontent.com/xephas-official/AppAssets/refs/heads/main/linkyoo/"
        ++ folder ++ "/" ++ filename ∧
    generateLink "meta" "cover.webp" =
      "https://raw.githubusercontent.com/xephas-official/AppAssets/refs/heads/main/linkyoo/meta/cover.webp" := by
  exact ⟨rfl, by decide⟩

/-- Witness for C1 at folder `meta`, filename `cover.webp`. -/
theorem generateLink_spec_witness :
    generateLink "meta" "cover.webp" =
      "https://raw.githubusercontent.com/xephas-official/AppAssets/refs/heads/main/linkyoo/meta/cover.webp" :=
  (generateLink_spec "meta" "cover.webp" (by decide)).2

/-- C5: with zero arguments, or a help flag (`--help` or `-h`) anywhere in the
argument list, the program prints exactly the usage text to standard output,
writes nothing to standard error, and exits with code 0. -/
theorem mainRun_help (fs : Fs) (args : List String)
    (h : args = [] ∨ "--help" ∈ args ∨ "-h" ∈ args) :
    mainRun fs args = { stdout := [usageText], stderr := [], exitCode := 0 } := by
  have hc : (args.length == 0 || args.contains "--help" || args.contains "-h") = true := by
    rcases h with h | h | h <;> simp [h]
  unfold mainRun
  rw [if_pos hc]

/-- Witness for C5 at the empty argument list. -/
theorem mainRun_help_witness :
    mainRun emptyFs [] = { stdout := [usageText], stderr := [], exitCode := 0 } :=
  mainRun_help emptyFs [] (Or.inl rfl)

set_option maxRecDepth 20000 in
/-- C6 fails as stated: an invocation with two arguments, one of which is a
help flag, exits with code 0 and writes nothing to standard error, instead of
exiting 1 with an error. -/
theorem mainRun_two_args_help_exit0 :
    (["meta", "--help"] : List String).length = 2 ∧
    mainRun emptyFs ["meta", "--help"] =
      { stdout := [usageText], stderr := [], exitCode := 0 } := by
  decide

/-- C6 (amended): with more than one argument and no help flag among them, the
program prints an error to standard error, the usage text to standard output,
and exits with code 1. -/
theorem mainRun_too_many_args (fs : Fs) (args : List String)
    (hlen : 1 < args.length) (h1 : "--help" ∉ args) (h2 : "-h" ∉ args) :
    mainRun fs args = { stdout := [usageText], stderr := [tooManyArgsMsg], exitCode := 1 } := by
  have hne : args ≠ [] := by
    intro e
    rw [e] at hlen
    simp at hlen
  have hc : ¬ ((args.length == 0 || args.contains "--help" || args.contains "-h") = true) := by
    simp
    exact ⟨⟨hne, h1⟩, h2⟩
  have hc2 : (!(args.length == 1)) = true := by
    have : (args.length == 1) = false := by
      simp only [beq_eq_false_iff_ne]
      omega
    rw [this]
    rfl
  unfold mainRun
  rw [if_neg hc, if_pos hc2]

/-- Witness for C6 (amended) at two non-help arguments. -/
theorem mainRun_too_many_args_witness :
    mainRun emptyFs ["meta", "blog"] =
      { stdout := [usageText], stderr := [tooManyArgsMsg], exitCode := 1 } :=
  mainRun_too_many_args emptyFs ["meta", "blog"] (by decide) (by decide) (by decide)

/-- C9: a help flag anywhere in the argument list makes the program print the
usage text and exit 0, even when there is more than one argument — the help
check takes precedence over the argument-count error. -/
theorem mainRun_help_precedence (fs : Fs) (args : List String)
    (h : "--help" ∈ args ∨ "-h" ∈ args) :
    mainRun fs args = { stdout := [usageText], stderr := [], exitCode := 0 } := by
  have hc : (args.length == 0 || args.contains "--help" || args.contains "-h") = true := by
    rcases h with h | h <;> simp [h]
  unfold mainRun
  rw [if_pos hc]

/-- Witness for C9 at a three-argument list carrying `--help`. -/
theorem mainRun_help_precedence_witness :
    2 < (["a", "b", "--help"] : List String).length ∧
    mainRun emptyFs ["a", "b", "--help"] =
      { stdout := [usageText], stderr := [], exitCode := 0 } :=
  ⟨by decide, mainRun_help_precedence emptyFs ["a", "b", "--help"] (Or.inl (by decide))⟩

set_option maxRecDepth 20000 in
/-- C2 fails as stated: the string `--help` is not an allowed folder, yet the
folder-only invocation with it exits with code 0 and writes nothing to
standard error, because the help check runs before folder validation. -/
theorem mainRun_invalid_folder_help_exit0 :
    FOLDERS.contains "--help" = false ∧
    mainRun emptyFs ["--help"] =
      { stdout := [usageText], stderr := [], exitCode := 0 } := by
  decide

/-- C2 (amended): for a single argument that is not a help flag and whose
folder segment is not in the allowed set — whether a bare folder or a
folder/filename path — the program exits with code 1, prints an error naming
the invalid folder and the allowed set on standard error, and the usage text
on standard output. -/
theorem mainRun_invalid_folder (fs : Fs) (input folder : String)
    (hf : FOLDERS.contains folder = false)
    (h1 : input ≠ "--help") (h2 : input ≠ "-h")
    (h : jsSplit input '/' = [folder] ∨ ∃ filename, jsSplit input '/' = [folder, filename]) :
    mainRun fs [input] =
      { stdout := [usageText], stderr := [invalidFolderMsg folder], exitCode := 1 } := by
  have hc : ¬ ((([input] : List String).length == 0 ||
      [input].contains "--help" || [input].contains "-h") = true) := by
    simp
    exact ⟨fun e => h1 e.symm, fun e => h2 e.symm⟩
  have hc2 : ¬ ((!(([input] : List String).length == 1)) = true) := by simp
  unfold mainRun
  rw [if_neg hc, if_neg hc2]
  simp only [List.headD_cons, List.head?_cons, Option.getD_some]
  have hm : folder ∉ FOLDERS := by simpa using hf
  rcases h with h | ⟨filename, h⟩ <;> rw [h] <;> simp [hm]

/-- Witness for C2 (amended) at the single argument `bogus`. -/
theorem mainRun_invalid_folder_witness :
    mainRun emptyFs ["bogus"] =
      { stdout := [usageText], stderr := [invalidFolderMsg "bogus"], exitCode := 1 } :=
  mainRun_invalid_folder emptyFs "bogus" "bogus" (by decide) (by decide) (by decide)
    (Or.inl (by decide))

/-- C7: a single path argument that splits on `/` into more than two segments
makes the program print the malformed-path error to standard error, the usage
text to standard output, and exit with code 1. -/
theorem mainRun_malformed_path (fs : Fs) (input a b c : String) (rest : List String)
    (h : jsSplit input '/' = a :: b :: c :: rest) :
    mainRun fs [input] =
      { stdout := [usageText], stderr := [malformedPathMsg], exitCode := 1 } := by
  have h1 : input ≠ "--help" := by
    intro e
    rw [e, show jsSplit "--help" '/' = ["--help"] from rfl] at h
    simp at h
  have h2 : input ≠ "-h" := by
    intro e
    rw [e, show jsSplit "-h" '/' = ["-h"] from rfl] at h
    simp at h
  have hc : ¬ ((([input] : List String).length == 0 ||
      [input].contains "--help" || [input].contains "-h") = true) := by
    simp
    exact ⟨fun e => h1 e.symm, fun e => h2 e.symm⟩
  have hc2 : ¬ ((!(([input] : List String).length == 1)) = true) := by simp
  unfold mainRun
  rw [if_neg hc, if_neg hc2]
  simp only [List.headD_cons, List.head?_cons, Option.getD_some]
  rw [h]

/-- Witness for C7 at the single argument `a/b/c`. -/
theorem mainRun_malformed_path_witness :
    mainRun emptyFs ["a/b/c"] =
      { stdout := [usageText], stderr := [malformedPathMsg], exitCode := 1 } :=
  mainRun_malformed_path emptyFs "a/b/c" "a" "b" "c" [] (by decide)

/-- C10: a single argument of the form `folder/` with an allowed folder and an
empty filename is accepted in folder/filename mode: the program exits 0 and
prints the generated link with the empty filename substituted verbatim, so the
printed URL ends in `/`. -/
theorem mainRun_trailing_slash (fs : Fs) (folder : String)
    (hf : FOLDERS.contains folder = true) :
    mainRun fs [folder ++ "/"] =
      { stdout := ["\nGenerated Link:", generateLink folder "", ""],
        stderr := [], exitCode := 0 } ∧
    generateLink folder "" =
      "https://raw.githubusercontent.com/xephas-official/AppAssets/refs/heads/main/linkyoo/"
        ++ folder ++ "/" ∧
    (generateLink folder "").data.getLast? = some '/' := by
  have hm : folder = "meta" ∨ folder = "placeholders" ∨ folder = "blog" := by
    simpa [FOLDERS] using hf
  rcases hm with rfl | rfl | rfl <;>
    exact ⟨rfl, by decide, by decide⟩

/-- Witness for C10 at folder `meta`. -/
theorem mainRun_trailing_slash_witness :
    mainRun emptyFs ["meta/"] =
      { stdout := ["\nGenerated Link:", generateLink "meta" "", ""],
        stderr := [], exitCode := 0 } ∧
    generateLink "meta" "" =
      "https://raw.githubusercontent.com/xephas-official/AppAssets/refs/heads/main/linkyoo/"
        ++ "meta" ++ "/" ∧
    (generateLink "meta" "").data.getLast? = some '/' :=
  mainRun_trailing_slash emptyFs "meta" (by decide)

/-- Helper: a single allowed-folder argument reaches the listing branch, whose
output is determined by `getFilesInFolder`. -/
theorem mainRun_single_valid (fs : Fs) (folder : String)
    (hm : folder = "meta" ∨ folder = "placeholders" ∨ folder = "blog") :
    mainRun fs [folder] =
      (if (getFilesInFolder fs folder).1.length == 0 then
        { stdout := [noFilesMsg folder], stderr := (getFilesInFolder fs folder).2,
          exitCode := 0 }
      else
        { stdout := headerMsg folder (getFilesInFolder fs folder).1.length ::
            fileLines folder (getFilesInFolder fs folder).1,
          stderr := (getFilesInFolder fs folder).2, exitCode := 0 }) := by
  rcases hm with rfl | rfl | rfl <;> rfl

set_option maxRecDepth 40000 in
/-- C3: for an allowed folder whose directory is readable, `getFilesInFolder`
returns exactly the names of the non-hidden regular-file entries, ordered by
modification time newest first; in particular with `a.png` older and `b.png`
newer, the run lists `b.png` first with its link, then `a.png`, under a header
reporting `2 files`. -/
theorem getFilesInFolder_spec (fs : Fs) (folder : String) (es : List DirEntry)
    (h : fs.lookup folder = DirState.entries es) :
    (∀ name, name ∈ (getFilesInFolder fs folder).1 ↔
        ∃ e ∈ es, e.isFile = true ∧ startsWithDot e.name = false ∧ e.name = name) ∧
    (∃ es2 : List DirEntry,
        es2.Perm (es.filter fun e => !startsWithDot e.name && e.isFile) ∧
        es2.Pairwise (fun a b => b.mtime ≤ a.mtime) ∧
        (getFilesInFolder fs folder).1 = es2.map DirEntry.name) ∧
    mainRun exampleFs ["meta"] =
      { stdout :=
          ["\nGenerated Links for \"meta\" folder (2 files, sorted by newest first):\n",
           "1. b.png",
           "   https://raw.githubusercontent.com/xephas-official/AppAssets/refs/heads/main/linkyoo/meta/b.png\n",
           "2. a.png",
           "   https://raw.githubusercontent.com/xephas-official/AppAssets/refs/heads/main/linkyoo/meta/a.png\n"],
        stderr := [], exitCode := 0 } := by
  refine ⟨?_, ?_, by decide⟩
  · intro name
    simp only [getFilesInFolder, h, List.mem_map]
    constructor
    · rintro ⟨e, he, rfl⟩
      rw [List.mem_insertionSort, List.mem_filter] at he
      obtain ⟨he1, he2⟩ := he
      rw [Bool.and_eq_true, Bool.not_eq_true'] at he2
      exact ⟨e, he1, he2.2, he2.1, rfl⟩
    · rintro ⟨e, he, hfile, hdot, rfl⟩
      refine ⟨e, ?_, rfl⟩
      rw [List.mem_insertionSort, List.mem_filter]
      refine ⟨he, ?_⟩
      rw [Bool.and_eq_true, Bool.not_eq_true']
      exact ⟨hdot, hfile⟩
  · refine ⟨(es.filter fun e => !startsWithDot e.name && e.isFile).insertionSort byNewest,
      List.perm_insertionSort _ _, ?_, by simp only [getFilesInFolder, h]⟩
    haveI ht : IsTotal DirEntry byNewest := ⟨fun a b => le_total b.mtime a.mtime⟩
    haveI htr : IsTrans DirEntry byNewest := ⟨fun a b c hab hbc => le_trans hbc hab⟩
    exact List.sorted_insertionSort byNewest _

/-- Witness for C3 at the concrete two-file directory. -/
theorem getFilesInFolder_spec_witness :
    (getFilesInFolder exampleFs "meta").1 = ["b.png", "a.png"] ∧
    ("b.png" ∈ (getFilesInFolder exampleFs "meta").1 ↔
      ∃ e ∈ exampleDir, e.isFile = true ∧ startsWithDot e.name = false ∧
        e.name = "b.png") :=
  ⟨by decide, (getFilesInFolder_spec exampleFs "meta" exampleDir rfl).1 "b.png"⟩

/-- C4: in folder-listing mode with an allowed folder, a missing directory or
a filesystem read failure is logged to standard error as one line, the result
degrades to an empty list, and the process prints the no-files message and
exits with code 0, not 1. -/
theorem mainRun_fs_error (fs : Fs) (folder : String)
    (hf : FOLDERS.contains folder = true)
    (h : fs.lookup folder = DirState.missing ∨
      ∃ msg, fs.lookup folder = DirState.readError msg) :
    (getFilesInFolder fs folder).1 = [] ∧
    (getFilesInFolder fs folder).2.length = 1 ∧
    mainRun fs [folder] =
      { stdout := [noFilesMsg folder], stderr := (getFilesInFolder fs folder).2,
        exitCode := 0 } := by
  have hm : folder = "meta" ∨ folder = "placeholders" ∨ folder = "blog" := by
    simpa [FOLDERS] using hf
  have hg : (getFilesInFolder fs folder).1 = [] ∧
      (getFilesInFolder fs folder).2.length = 1 := by
    rcases h with h | ⟨msg, h⟩ <;> simp [getFilesInFolder, h]
  have h0 : ((getFilesInFolder fs folder).1.length == 0) = true := by
    rw [hg.1]
    rfl
  refine ⟨hg.1, hg.2, ?_⟩
  rw [mainRun_single_valid fs folder hm, if_pos h0]

/-- Witness for C4 at folder `meta` over the directory-less filesystem. -/
theorem mainRun_fs_error_witness :
    (getFilesInFolder emptyFs "meta").1 = [] ∧
    (getFilesInFolder emptyFs "meta").2.length = 1 ∧
    mainRun emptyFs ["meta"] =
      { stdout := [noFilesMsg "meta"], stderr := (getFilesInFolder emptyFs "meta").2,
        exitCode := 0 } :=
  mainRun_fs_error emptyFs "meta" (by decide) (Or.inl rfl)

/-- C8: folder validation precedes everything observable. Whenever the single
argument's folder segment is not in the allowed set — and in every run with
zero or several arguments — the outcome is independent of the filesystem, so
no directory is scanned, and standard output carries nothing but the usage
text, so no link is emitted. -/
theorem folder_validated_first (fs fs2 : Fs) (args : List String)
    (h : ∀ input, args = [input] →
      FOLDERS.contains ((jsSplit input '/').headD "") = false) :
    mainRun fs args = mainRun fs2 args ∧
    ∀ line ∈ (mainRun fs args).stdout, line = usageText := by
  suffices hS : ∃ R : Output, (∀ g : Fs, mainRun g args = R) ∧
      ∀ line ∈ R.stdout, line = usageText by
    obtain ⟨R, hR, hR2⟩ := hS
    refine ⟨(hR fs).trans (hR fs2).symm, ?_⟩
    rw [hR fs]
    exact hR2
  rcases args with _ | ⟨a, _ | ⟨b, rest⟩⟩
  · exact ⟨⟨[usageText], [], 0⟩, fun g => rfl, by simp⟩
  · have hf := h a rfl
    by_cases hc : (([a] : List String).length == 0 ||
        [a].contains "--help" || [a].contains "-h") = true
    · refine ⟨⟨[usageText], [], 0⟩, fun g => ?_, by simp⟩
      unfold mainRun
      rw [if_pos hc]
    · have hc2 : ¬ ((!(([a] : List String).length == 1)) = true) := by simp
      rcases hsp : jsSplit a '/' with _ | ⟨x, _ | ⟨y, tail2⟩⟩
      · refine ⟨⟨[usageText], [malformedPathMsg], 1⟩, fun g => ?_, by simp⟩
        unfold mainRun
        rw [if_neg hc, if_neg hc2]
        simp only [List.headD_cons, List.head?_cons, Option.getD_some]
        rw [hsp]
      · rw [hsp] at hf
        simp only [List.headD_cons] at hf
        have hxm : x ∉ FOLDERS := by simpa using hf
        refine ⟨⟨[usageText], [invalidFolderMsg x], 1⟩, fun g => ?_, by simp⟩
        unfold mainRun
        rw [if_neg hc, if_neg hc2]
        simp only [List.headD_cons, List.head?_cons, Option.getD_some]
        rw [hsp]
        simp [hxm]
      · rcases tail2 with _ | ⟨z, tail3⟩
        · rw [hsp] at hf
          simp only [List.headD_cons] at hf
          have hxm : x ∉ FOLDERS := by simpa using hf
          refine ⟨⟨[usageText], [invalidFolderMsg x], 1⟩, fun g => ?_, by simp⟩
          unfold mainRun
          rw [if_neg hc, if_neg hc2]
          simp only [List.headD_cons, List.head?_cons, Option.getD_some]
          rw [hsp]
          simp [hxm]
        · refine ⟨⟨[usageText], [malformedPathMsg], 1⟩, fun g => ?_, by simp⟩
          unfold mainRun
          rw [if_neg hc, if_neg hc2]
          simp only [List.headD_cons, List.head?_cons, Option.getD_some]
          rw [hsp]
  · by_cases hc : ((a :: b :: rest).length == 0 ||
        (a :: b :: rest).contains "--help" || (a :: b :: rest).contains "-h") = true
    · refine ⟨⟨[usageText], [], 0⟩, fun g => ?_, by simp⟩
      unfold mainRun
      rw [if_pos hc]
    · have hne : (a :: b :: rest).length ≠ 1 := by simp
      have hc2 : (!((a :: b :: rest).length == 1)) = true := by
        rw [beq_eq_false_iff_ne.mpr hne]
        rfl
      refine ⟨⟨[usageText], [tooManyArgsMsg], 1⟩, fun g => ?_, by simp⟩
      unfold mainRun
      rw [if_neg hc, if_pos hc2]

/-- Witness for C8 at the single argument `bogus` over two different
filesystems. -/
theorem folder_validated_first_witness :
    mainRun emptyFs ["bogus"] = mainRun exampleFs ["bogus"] ∧
    ∀ line ∈ (mainRun emptyFs ["bogus"]).stdout, line = usageText :=
  folder_validated_first emptyFs exampleFs ["bogus"]
    (fun input hI => by
      injection hI with h1 h2
      rw [← h1]
      decide)

end GenLink
